import Mathlib

/-!
Verification of the Cassandra-backed APDB engine (lsst-dm/dax_apdb).

This file shallowly embeds the parts of
`python/lsst/dax/apdb/apdbCassandra.py` (class `ApdbCassandra`) that the
checked claims are about: the time-partition function, the read planner and
residual filters of `_getSources`, the months-zero and empty-id shortcuts,
the partition-key annotation of the ingest pipeline, the primary-key check
of `_storeObjectsPandas`, the result-consumption loop of `_run_queries`,
and the table expansion of `makeSchema`.

Conventions of the embedding:
* Python floats carrying MJD values are modelled as rationals (`ℚ`).
* Python `int(x)` on a float is truncation toward zero (`pyTrunc`).
* Python `a // b` on integers is floor division (`Int.fdiv`).
* The spherical pixelization (lsst.sphgeom) is external; a pixelization is
  an abstract function `ℚ → ℚ → ℤ` from (ra, dec) to a pixel id, and a
  region enters the model as the pixel list that `Partitioner.pixels`
  returns for it.
* pandas DataFrames are modelled either as lists of structured rows (for
  the read path) or as named-column tables on an explicit heap (for the
  mutation claim).
-/

/-- MJD of 1970-01-01 TAI, the value of
`ApdbCassandra.partition_zero_epoch.get(system=MJD)`
(`partition_zero_epoch = DateTime(1970, 1, 1, 0, 0, 0, TAI)`). -/
def partition_zero_epoch_mjd : ℚ := 40587

/-- Python `int()` applied to a float: truncation toward zero. -/
def pyTrunc (x : ℚ) : ℤ := if 0 ≤ x then ⌊x⌋ else ⌈x⌉

/-- The configuration options of `ApdbCassandraConfig` that the embedded
code reads.  The `time_partition_start` and `time_partition_end` strings
are represented by the MJD (TAI) values their parsed `DateTime`s yield. -/
structure ApdbCassandraConfig where
  time_partition_days : ℤ
  time_partition_tables : Bool
  time_partition_start : ℚ
  time_partition_end : ℚ
  read_sources_months : ℤ
  read_forced_sources_months : ℤ
  query_per_time_part : Bool
  query_per_spatial_part : Bool
  pandas_delay_conv : Bool
  table_pfx : String
deriving DecidableEq

/-- Embedding of `ApdbCassandra._time_partition`: for a time given as MJD
(a `DateTime` argument is first converted to MJD, which this embedding
takes directly), compute
`days_since_epoch = mjd - self._partition_zero_epoch_mjd` and return
`int(days_since_epoch) // self.config.time_partition_days`. -/
def time_partition (cfg : ApdbCassandraConfig) (mjd : ℚ) : ℤ :=
  let days_since_epoch := mjd - partition_zero_epoch_mjd
  Int.fdiv (pyTrunc days_since_epoch) cfg.time_partition_days

/-- Truncation toward zero is monotone. -/
theorem pyTrunc_mono {x y : ℚ} (h : x ≤ y) : pyTrunc x ≤ pyTrunc y := by
  unfold pyTrunc
  by_cases hx : 0 ≤ x <;> by_cases hy : 0 ≤ y <;> simp [hx, hy]
  · exact Int.floor_le_floor h
  · exact absurd (le_trans hx h) hy
  · exact le_trans (Int.ceil_le.mpr (by exact_mod_cast le_of_not_le hx))
      (Int.floor_nonneg.mpr hy)
  · exact Int.ceil_le_ceil h

/-- Floor division by a positive integer is monotone. -/
theorem fdiv_mono {a b d : ℤ} (hd : 0 < d) (h : a ≤ b) :
    Int.fdiv a d ≤ Int.fdiv b d := by
  rw [Int.fdiv_eq_ediv _ (le_of_lt hd), Int.fdiv_eq_ediv _ (le_of_lt hd)]
  exact Int.ediv_le_ediv hd h

/-- Floor of a rational divided by a positive integer equals integer
division of its floor. -/
theorem floor_rat_div_pos (x : ℚ) {d : ℤ} (hd : 0 < d) :
    ⌊x / (d : ℚ)⌋ = ⌊x⌋ / d := by
  have hd0 : (0 : ℚ) < (d : ℚ) := by exact_mod_cast hd
  have hdne : d ≠ 0 := ne_of_gt hd
  set q := ⌊x⌋ / d with hq
  set r := ⌊x⌋ % d with hr
  have hqr : d * q + r = ⌊x⌋ := Int.ediv_add_emod ⌊x⌋ d
  have hr0 : 0 ≤ r := Int.emod_nonneg ⌊x⌋ hdne
  have hrd : r < d := Int.emod_lt_of_pos ⌊x⌋ hd
  rw [Int.floor_eq_iff]
  constructor
  · rw [le_div_iff₀ hd0]
    have h1 : (q * d : ℚ) ≤ (⌊x⌋ : ℚ) := by
      have : q * d ≤ ⌊x⌋ := by rw [mul_comm]; omega
      exact_mod_cast this
    exact le_trans h1 (Int.floor_le x)
  · rw [div_lt_iff₀ hd0]
    have h2 : x < (⌊x⌋ : ℚ) + 1 := Int.lt_floor_add_one x
    have h3 : ((⌊x⌋ : ℚ) + 1) ≤ (q + 1) * d := by
      have : ⌊x⌋ + 1 ≤ (q + 1) * d := by nlinarith [hqr, hrd]
      calc ((⌊x⌋ : ℚ) + 1) = ((⌊x⌋ + 1 : ℤ) : ℚ) := by push_cast; ring
        _ ≤ (((q + 1) * d : ℤ) : ℚ) := by exact_mod_cast this
        _ = (q + 1) * d := by push_cast; ring
    calc x < (⌊x⌋ : ℚ) + 1 := h2
      _ ≤ ((q : ℚ) + 1) * d := by exact_mod_cast h3

/-- Configuration used for concrete counterexamples and witnesses: the
defaults of `ApdbCassandraConfig` (time_partition_days = 30,
time_partition_tables = True, read months = 12, IN-list queries,
delayed pandas conversion). The start/end MJD values correspond to the
default 2018-12-01 and 2030-01-01 TAI strings. -/
def cfg0 : ApdbCassandraConfig :=
  { time_partition_days := 30
    time_partition_tables := true
    time_partition_start := 58453
    time_partition_end := 62502
    read_sources_months := 12
    read_forced_sources_months := 12
    query_per_time_part := false
    query_per_spatial_part := false
    pandas_delay_conv := true
    table_pfx := "" }

/-- Claim C3 (counterexample): `_time_partition` does not return
`floor((mjd - epoch_mjd) / time_partition_days)` for every time: half a
day before the 1970-01-01 epoch, with the default 30-day granularity, the
code returns `int(-1/2) // 30 = 0` while the floor of the fractional
quotient is `-1`. -/
theorem c3_counterexample :
    time_partition cfg0 (partition_zero_epoch_mjd - 1/2) ≠
      ⌊((partition_zero_epoch_mjd - 1/2) - partition_zero_epoch_mjd) /
        ((cfg0.time_partition_days : ℤ) : ℚ)⌋ := by
  have hc : ⌈(-(1/2) : ℚ)⌉ = 0 := by
    rw [Int.ceil_eq_iff]
    constructor <;> norm_num
  have h1 : time_partition cfg0 (partition_zero_epoch_mjd - 1/2) = 0 := by
    show (pyTrunc (partition_zero_epoch_mjd - 1/2 - partition_zero_epoch_mjd)).fdiv
      cfg0.time_partition_days = 0
    have hx : partition_zero_epoch_mjd - 1/2 - partition_zero_epoch_mjd = -(1/2) := by ring
    rw [hx]
    unfold pyTrunc
    rw [if_neg (by norm_num), hc]
    decide
  have h2 : ⌊((partition_zero_epoch_mjd - 1/2) - partition_zero_epoch_mjd) /
      ((cfg0.time_partition_days : ℤ) : ℚ)⌋ = -1 := by
    have hx : ((partition_zero_epoch_mjd - 1/2) - partition_zero_epoch_mjd) /
        ((cfg0.time_partition_days : ℤ) : ℚ) = -(1/60) := by
      show ((partition_zero_epoch_mjd - 1/2) - partition_zero_epoch_mjd) / ((30 : ℤ) : ℚ) = -(1/60)
      norm_num
    rw [hx, Int.floor_eq_iff]
    constructor <;> norm_num
  rw [h1, h2]
  decide

/-- Claim C3 (amended): for every positive `time_partition_days` and every
time at or after the 1970-01-01 TAI epoch, `_time_partition` returns
`floor((mjd - epoch_mjd) / time_partition_days)`; the code truncates the
day offset toward zero before the floor division, so for times before the
epoch with a fractional day offset the result differs from the floor (see
the counterexample). -/
theorem c3_time_partition_floor (cfg : ApdbCassandraConfig) (mjd : ℚ)
    (hd : 0 < cfg.time_partition_days) (he : partition_zero_epoch_mjd ≤ mjd) :
    time_partition cfg mjd =
      ⌊(mjd - partition_zero_epoch_mjd) / ((cfg.time_partition_days : ℤ) : ℚ)⌋ := by
  have hx : (0 : ℚ) ≤ mjd - partition_zero_epoch_mjd := by linarith
  have htr : pyTrunc (mjd - partition_zero_epoch_mjd) = ⌊mjd - partition_zero_epoch_mjd⌋ := by
    unfold pyTrunc
    simp [hx]
  show (pyTrunc (mjd - partition_zero_epoch_mjd)).fdiv cfg.time_partition_days = _
  rw [htr, Int.fdiv_eq_ediv _ (le_of_lt hd), floor_rat_div_pos _ hd]

/-- Claim C3 (witness): the amended theorem applied at the default
configuration and MJD 59000.5. -/
theorem c3_witness :
    (0 : ℤ) < cfg0.time_partition_days ∧
    partition_zero_epoch_mjd ≤ (59000.5 : ℚ) ∧
    time_partition cfg0 (59000.5 : ℚ) =
      ⌊((59000.5 : ℚ) - partition_zero_epoch_mjd) / ((cfg0.time_partition_days : ℤ) : ℚ)⌋ :=
  ⟨by decide, by unfold partition_zero_epoch_mjd; norm_num,
    c3_time_partition_floor cfg0 (59000.5 : ℚ) (by decide)
      (by unfold partition_zero_epoch_mjd; norm_num)⟩

/-- Claim C4: the time-partition function is monotone: for `t1 ≤ t2` (as
MJD) and positive `time_partition_days`,
`_time_partition(t1) ≤ _time_partition(t2)`. -/
theorem c4_time_partition_monotone (cfg : ApdbCassandraConfig) {t1 t2 : ℚ}
    (hd : 0 < cfg.time_partition_days) (h : t1 ≤ t2) :
    time_partition cfg t1 ≤ time_partition cfg t2 := by
  unfold time_partition
  exact fdiv_mono hd (pyTrunc_mono (by linarith))

/-- Claim C4 (witness): monotonicity applied at the default configuration
with t1 = 59000, t2 = 59001.25. -/
theorem c4_witness :
    (0 : ℤ) < cfg0.time_partition_days ∧
    (59000 : ℚ) ≤ (59001.25 : ℚ) ∧
    time_partition cfg0 59000 ≤ time_partition cfg0 59001.25 :=
  ⟨by decide, by norm_num,
    c4_time_partition_monotone cfg0 (by decide) (by norm_num)⟩

/-- Truncation of an integer-valued rational is the integer itself. -/
theorem pyTrunc_intCast (z : ℤ) : pyTrunc (z : ℚ) = z := by
  unfold pyTrunc
  split <;> simp

/-- Stored row of a DiaSource / DiaForcedSource table, as the Cassandra
engine lays it out: the spatial partition key `apdb_part`, the temporal
partition `apdb_time_part` (under time-partition-tables mode this is the
suffix of the physical table the row lives in, otherwise the value of the
`apdb_time_part` column; the two coincide in this model), the clustering
column `diaObjectId` and the data column `midPointTai`. -/
structure SourceRow where
  apdb_part : ℤ
  apdb_time_part : ℤ
  diaObjectId : ℤ
  midPointTai : ℚ
deriving DecidableEq

/-- Spatial part of a WHERE clause produced by `_getSources`: either one
predicate per pixel (`"apdb_part" = p`, when `query_per_spatial_part`) or
a single `"apdb_part" IN (...)` predicate. -/
inductive SpatialPred where
  | eqPix (p : ℤ)
  | inPix (ps : List ℤ)
deriving DecidableEq

/-- Temporal part of a WHERE clause produced by `_getSources`: either one
predicate per time partition (`"apdb_time_part" = p`, when
`query_per_time_part`) or a single `"apdb_time_part" IN (...)`. -/
inductive TemporalPred where
  | eqPart (p : ℤ)
  | inPart (ps : List ℤ)
deriving DecidableEq

/-- Truth value of a spatial predicate on a row's `apdb_part`. -/
def SpatialPred.holds : SpatialPred → ℤ → Bool
  | SpatialPred.eqPix p, a => decide (a = p)
  | SpatialPred.inPix ps, a => decide (a ∈ ps)

/-- Truth value of a temporal predicate on a row's `apdb_time_part`. -/
def TemporalPred.holds : TemporalPred → ℤ → Bool
  | TemporalPred.eqPart p, a => decide (a = p)
  | TemporalPred.inPart ps, a => decide (a ∈ ps)

/-- One query of the plan built by `_getSources`: the physical table it
addresses (`some p` for a per-partition table `<base>_p`, `none` for the
single base table) and its WHERE clause. -/
structure SourceQuery where
  timeTable : Option ℤ
  spatial : SpatialPred
  temporal : Option TemporalPred
deriving DecidableEq

/-- Python `range(lo, hi + 1)` as a list of integers
(`list(range(time_part_start, time_part_end + 1))` in `_getSources`). -/
def intRangeIcc (lo hi : ℤ) : List ℤ :=
  (List.range (hi + 1 - lo).toNat).map (fun k : ℕ => lo + (k : ℤ))

theorem mem_intRangeIcc {lo hi i : ℤ} : i ∈ intRangeIcc lo hi ↔ lo ≤ i ∧ i ≤ hi := by
  unfold intRangeIcc
  simp only [List.mem_map, List.mem_range]
  constructor
  · rintro ⟨k, hk, rfl⟩
    omega
  · intro h
    refine ⟨(i - lo).toNat, by omega, by omega⟩

/-- Embedding of the query-plan construction of `ApdbCassandra._getSources`
(lines 519-564): spatial WHERE from the region's pixels, time partitions
from `[time_partition(mjd_start) .. time_partition(mjd_end)]`, then the
cross product, per-partition tables outermost when
`time_partition_tables`, otherwise spatial outermost and temporal
innermost. -/
def buildSourceQueries (cfg : ApdbCassandraConfig) (pixels : List ℤ)
    (mjd_start mjd_end : ℚ) : List SourceQuery :=
  let spatial_where : List SpatialPred :=
    if cfg.query_per_spatial_part then pixels.map SpatialPred.eqPix
    else [SpatialPred.inPix pixels]
  let time_parts :=
    intRangeIcc (time_partition cfg mjd_start) (time_partition cfg mjd_end)
  if cfg.time_partition_tables then
    time_parts.bind (fun p => spatial_where.map (fun s => ⟨some p, s, none⟩))
  else
    let temporal_where : List TemporalPred :=
      if cfg.query_per_time_part then time_parts.map TemporalPred.eqPart
      else [TemporalPred.inPart time_parts]
    spatial_where.bind (fun s => temporal_where.map (fun t => ⟨none, s, some t⟩))

/-- Rows a single planned query returns: the rows of the addressed table
satisfying its WHERE clause. -/
def evalSourceQuery (db : List SourceRow) (q : SourceQuery) : List SourceRow :=
  db.filter (fun r =>
    (match q.timeTable with
     | some p => decide (r.apdb_time_part = p)
     | none => true) &&
    SpatialPred.holds q.spatial r.apdb_part &&
    (match q.temporal with
     | some t => TemporalPred.holds t r.apdb_time_part
     | none => true))

/-- Result of a facade read: either the Absent sentinel (Python `None`) or
a DataFrame, modelled as its column names and its rows. -/
inductive GetResult where
  | absent
  | frame (columns : List String) (rows : List SourceRow)
deriving DecidableEq

/-- Rows of a read result (empty for the Absent sentinel). -/
def GetResult.rows : GetResult → List SourceRow
  | GetResult.absent => []
  | GetResult.frame _ rows => rows

/-- Embedding of `ApdbCassandra._getSources`.  `schemaCols` are the column
names of the logical table (used by `_make_empty_catalog`), `physCols` the
columns the SELECT * queries return.  The second component counts the
statements of the executed plan; the empty-object-id shortcut returns
before any plan is built.  Merging the per-query results and applying the
two residual filters (object-id membership when the id set is non-empty,
then the unconditional `midPointTai > mjd_start`) follows lines 561-578 of
apdbCassandra.py. -/
def getSources (cfg : ApdbCassandraConfig) (schemaCols physCols : List String)
    (pixels : List ℤ) (object_ids : Option (List ℤ)) (mjd_start mjd_end : ℚ)
    (db : List SourceRow) : GetResult × ℕ :=
  let object_id_set : List ℤ := object_ids.getD []
  if object_ids.isSome && object_id_set.isEmpty then
    (GetResult.frame schemaCols [], 0)
  else
    let queries := buildSourceQueries cfg pixels mjd_start mjd_end
    let catalog0 := queries.bind (evalSourceQuery db)
    let catalog1 :=
      if 0 < object_id_set.length then
        catalog0.filter (fun r => decide (r.diaObjectId ∈ object_id_set))
      else catalog0
    let catalog2 := catalog1.filter (fun r => decide (mjd_start < r.midPointTai))
    (GetResult.frame physCols catalog2, queries.length)

/-- Embedding of `ApdbCassandra.getDiaSources`: Absent when
`read_sources_months == 0`, otherwise `_getSources` over the window
`[t - months * 30, t]`. -/
def getDiaSources (cfg : ApdbCassandraConfig) (schemaCols physCols : List String)
    (pixels : List ℤ) (object_ids : Option (List ℤ)) (visit_time : ℚ)
    (db : List SourceRow) : GetResult × ℕ :=
  if cfg.read_sources_months = 0 then (GetResult.absent, 0)
  else
    let mjd_end := visit_time
    let mjd_start := mjd_end - cfg.read_sources_months * 30
    getSources cfg schemaCols physCols pixels object_ids mjd_start mjd_end db

/-- Embedding of `ApdbCassandra.getDiaForcedSources`: same as
`getDiaSources` with the `read_forced_sources_months` setting. -/
def getDiaForcedSources (cfg : ApdbCassandraConfig) (schemaCols physCols : List String)
    (pixels : List ℤ) (object_ids : Option (List ℤ)) (visit_time : ℚ)
    (db : List SourceRow) : GetResult × ℕ :=
  if cfg.read_forced_sources_months = 0 then (GetResult.absent, 0)
  else
    let mjd_end := visit_time
    let mjd_start := mjd_end - cfg.read_forced_sources_months * 30
    getSources cfg schemaCols physCols pixels object_ids mjd_start mjd_end db

/-- Caller-side DiaSource record handed to `store` (the fields this model
uses); `apdb_part` is the value the annotation step assigns. -/
structure SourceRecord where
  apdb_part : ℤ
  diaObjectId : ℤ
  midPointTai : ℚ
deriving DecidableEq

/-- Embedding of `ApdbCassandra._storeDiaSources` as far as partitioning is
concerned: every row of the visit is stored under the temporal partition
`time_partition(visit_time)` — either as the suffix of the physical table
(time-partition-tables mode) or as the `apdb_time_part` column; both are
the `apdb_time_part` field of the stored row in this model. -/
def storeDiaSources (cfg : ApdbCassandraConfig) (visit_time : ℚ)
    (rows : List SourceRecord) : List SourceRow :=
  rows.map (fun r =>
    ⟨r.apdb_part, time_partition cfg visit_time, r.diaObjectId, r.midPointTai⟩)

/-- Membership in the merged result of the executed plan: a row is
returned by some planned query exactly when its spatial partition is one
of the region's pixels and its temporal partition lies in the queried
range, in all four planner configurations. -/
theorem mem_bind_buildSourceQueries (cfg : ApdbCassandraConfig) (pixels : List ℤ)
    (mjd_start mjd_end : ℚ) (db : List SourceRow) (r : SourceRow) :
    r ∈ (buildSourceQueries cfg pixels mjd_start mjd_end).bind (evalSourceQuery db) ↔
      r ∈ db ∧ r.apdb_part ∈ pixels ∧
      time_partition cfg mjd_start ≤ r.apdb_time_part ∧
      r.apdb_time_part ≤ time_partition cfg mjd_end := by
  by_cases htab : cfg.time_partition_tables <;>
    by_cases hsp : cfg.query_per_spatial_part <;>
    by_cases htp : cfg.query_per_time_part <;>
    simp [htab, hsp, htp, buildSourceQueries, evalSourceQuery, List.mem_bind,
      List.mem_filter, List.mem_map, mem_intRangeIcc, SpatialPred.holds,
      TemporalPred.holds, exists_exists_and_eq_and] <;>
    constructor <;> intro h
  all_goals try aesop
  · exact (mem_intRangeIcc.mp right).1
  · exact (mem_intRangeIcc.mp right).2
  · refine ⟨⟨none, SpatialPred.eqPix r.apdb_part,
      some (TemporalPred.inPart (intRangeIcc (time_partition cfg mjd_start)
        (time_partition cfg mjd_end)))⟩, ⟨r.apdb_part, left_1, rfl⟩, ?_⟩
    simp [mem_intRangeIcc]
    omega

/-- Rows returned by `_getSources` when the object-id list is non-empty:
exactly the stored rows in one of the region's pixels, with a queried
temporal partition, a matching object id, and `midPointTai` above the
lower bound of the window. -/
theorem mem_getSources (cfg : ApdbCassandraConfig) (schemaCols physCols : List String)
    (pixels ids : List ℤ) (mjd_start mjd_end : ℚ) (db : List SourceRow)
    (hne : ids ≠ []) (r : SourceRow) :
    r ∈ ((getSources cfg schemaCols physCols pixels (some ids) mjd_start mjd_end db).1).rows ↔
      r ∈ db ∧ r.apdb_part ∈ pixels ∧
      time_partition cfg mjd_start ≤ r.apdb_time_part ∧
      r.apdb_time_part ≤ time_partition cfg mjd_end ∧
      r.diaObjectId ∈ ids ∧ mjd_start < r.midPointTai := by
  have hlen : 0 < ids.length := List.length_pos.mpr hne
  have hemp : ids.isEmpty = false := by
    cases ids with
    | nil => exact absurd rfl hne
    | cons a l => rfl
  simp only [getSources, Option.getD, Option.isSome, hemp, Bool.and_false,
    Bool.false_eq_true, if_false, hlen, if_pos, GetResult.rows, List.mem_filter,
    mem_bind_buildSourceQueries, decide_eq_true_eq]
  tauto

/-- Evaluation helper: the time partition of an integer MJD under the
default configuration. -/
theorem time_partition_cfg0_int (n : ℤ) :
    time_partition cfg0 (n : ℚ) = Int.fdiv (n - 40587) 30 := by
  show (pyTrunc ((n : ℚ) - partition_zero_epoch_mjd)).fdiv cfg0.time_partition_days = _
  have hx : (n : ℚ) - partition_zero_epoch_mjd = ((n - 40587 : ℤ) : ℚ) := by
    unfold partition_zero_epoch_mjd
    push_cast
    ring
  rw [hx, pyTrunc_intCast]
  rfl

theorem tp0_59000 : time_partition cfg0 59000 = 613 := by
  rw [show (59000 : ℚ) = ((59000 : ℤ) : ℚ) by norm_num, time_partition_cfg0_int]
  decide

theorem tp0_59030 : time_partition cfg0 59030 = 614 := by
  rw [show (59030 : ℚ) = ((59030 : ℤ) : ℚ) by norm_num, time_partition_cfg0_int]
  decide

theorem tp0_start : time_partition cfg0 (59000 - (cfg0.read_sources_months : ℚ) * 30) = 601 := by
  rw [show (59000 : ℚ) - (cfg0.read_sources_months : ℚ) * 30 = ((58640 : ℤ) : ℚ) by
    show (59000 : ℚ) - ((12 : ℤ) : ℚ) * 30 = ((58640 : ℤ) : ℚ)
    norm_num, time_partition_cfg0_int]
  decide

/-- Claim C2 (amended): with a non-zero `read_sources_months = M`, a
non-empty object-id collection and visit time `t`, `getDiaSources` returns
exactly the stored rows that match the region's pixels and the ids, whose
temporal partition lies in the queried range
`[time_partition(t - 30*M), time_partition(t)]`, and whose `midPointTai`
is strictly greater than `t - 30*M`; rows with `midPointTai` at or below
that bound are never returned, but neither are rows above the bound whose
temporal partition (assigned from the visit time at ingest) falls outside
the queried range (see the counterexample). -/
theorem c2_getDiaSources_window (cfg : ApdbCassandraConfig)
    (schemaCols physCols : List String) (pixels ids : List ℤ) (t : ℚ)
    (db : List SourceRow) (hm : cfg.read_sources_months ≠ 0) (hne : ids ≠ []) :
    ∀ r : SourceRow,
      r ∈ ((getDiaSources cfg schemaCols physCols pixels (some ids) t db).1).rows ↔
        r ∈ db ∧ r.apdb_part ∈ pixels ∧ r.diaObjectId ∈ ids ∧
        time_partition cfg (t - cfg.read_sources_months * 30) ≤ r.apdb_time_part ∧
        r.apdb_time_part ≤ time_partition cfg t ∧
        t - cfg.read_sources_months * 30 < r.midPointTai := by
  intro r
  simp only [getDiaSources, hm, if_false]
  rw [mem_getSources cfg schemaCols physCols pixels ids _ t db hne]
  tauto

/-- Claim C2 (witness): the amended theorem applied to a catalog of one
DiaSource stored at visit MJD 59000 and read back at the same visit time
with the default configuration. -/
theorem c2_witness :
    cfg0.read_sources_months ≠ 0 ∧ ([7] : List ℤ) ≠ [] ∧
    (⟨1, 613, 7, 59000⟩ : SourceRow) ∈
      ((getDiaSources cfg0 [] [] [1] (some [7]) 59000
        (storeDiaSources cfg0 59000 [⟨1, 7, 59000⟩])).1).rows := by
  refine ⟨by decide, by decide, ?_⟩
  rw [c2_getDiaSources_window cfg0 [] [] [1] [7] 59000
    (storeDiaSources cfg0 59000 [⟨1, 7, 59000⟩]) (by decide) (by decide)]
  refine ⟨?_, by simp, by simp, ?_, ?_, ?_⟩
  · simp [storeDiaSources, tp0_59000]
  · rw [tp0_start]
    norm_num
  · rw [tp0_59000]
  · show (59000 : ℚ) - ((12 : ℤ) : ℚ) * 30 < 59000
    norm_num

/-- Claim C2 (counterexample): the claim as stated fails: a DiaSource
stored at a visit whose time partition lies beyond the partition of the
query time `t` is not returned even though it matches the region's pixels
and the requested ids and its `midPointTai` exceeds `t - 30*M`.  Here the
row is stored at visit MJD 59030 (partition 614) and queried at
`t = 59000` (partitions 601..613) with the default configuration. -/
theorem c2_counterexample :
    (⟨1, 614, 7, 59030⟩ : SourceRow) ∈ storeDiaSources cfg0 59030 [⟨1, 7, 59030⟩] ∧
    (1 : ℤ) ∈ ([1] : List ℤ) ∧ (7 : ℤ) ∈ ([7] : List ℤ) ∧
    (59000 : ℚ) - (cfg0.read_sources_months : ℚ) * 30 < 59030 ∧
    (⟨1, 614, 7, 59030⟩ : SourceRow) ∉
      ((getDiaSources cfg0 [] [] [1] (some [7]) 59000
        (storeDiaSources cfg0 59030 [⟨1, 7, 59030⟩])).1).rows := by
  refine ⟨by simp [storeDiaSources, tp0_59030], by simp, by simp, ?_, ?_⟩
  · show (59000 : ℚ) - ((12 : ℤ) : ℚ) * 30 < 59030
    norm_num
  · intro hmem
    simp only [getDiaSources, show cfg0.read_sources_months ≠ 0 by decide, if_false] at hmem
    rw [mem_getSources cfg0 [] [] [1] [7] _ 59000 _ (by decide)] at hmem
    have h1 : (⟨1, 614, 7, 59030⟩ : SourceRow).apdb_time_part ≤ time_partition cfg0 59000 :=
      hmem.2.2.2.1
    rw [tp0_59000] at h1
    exact absurd h1 (by decide)

/-- Claim C5: with `read_sources_months = 0`, `getDiaSources` returns the
Absent sentinel (`None`) for every region, object-id argument and visit
time, and issues no queries; the same holds for `getDiaForcedSources`
with `read_forced_sources_months = 0`. -/
theorem c5_absent_when_months_zero (cfg : ApdbCassandraConfig)
    (schemaCols physCols : List String) (pixels : List ℤ)
    (object_ids : Option (List ℤ)) (visit_time : ℚ) (db : List SourceRow) :
    (cfg.read_sources_months = 0 →
      getDiaSources cfg schemaCols physCols pixels object_ids visit_time db =
        (GetResult.absent, 0)) ∧
    (cfg.read_forced_sources_months = 0 →
      getDiaForcedSources cfg schemaCols physCols pixels object_ids visit_time db =
        (GetResult.absent, 0)) := by
  constructor <;> intro h
  · simp [getDiaSources, h]
  · simp [getDiaForcedSources, h]

/-- Configuration with both history windows disabled, used by the C5
witness. -/
def cfgM0 : ApdbCassandraConfig :=
  { cfg0 with read_sources_months := 0, read_forced_sources_months := 0 }

/-- Claim C5 (witness): the theorem applied at a concrete configuration
with both months settings zero, a `None` id argument and a non-empty
database. -/
theorem c5_witness :
    cfgM0.read_sources_months = 0 ∧ cfgM0.read_forced_sources_months = 0 ∧
    getDiaSources cfgM0 [] [] [1] none 59000 [⟨1, 613, 7, 59000⟩] =
      (GetResult.absent, 0) ∧
    getDiaForcedSources cfgM0 [] [] [1] none 59000 [⟨1, 613, 7, 59000⟩] =
      (GetResult.absent, 0) :=
  ⟨rfl, rfl,
    (c5_absent_when_months_zero cfgM0 [] [] [1] none 59000 [⟨1, 613, 7, 59000⟩]).1 rfl,
    (c5_absent_when_months_zero cfgM0 [] [] [1] none 59000 [⟨1, 613, 7, 59000⟩]).2 rfl⟩

/-- Claim C6: with a non-zero `read_sources_months`, `getDiaSources` on an
empty object-id collection returns an empty frame carrying the logical
table's schema columns (built by `_make_empty_catalog`), never the Absent
sentinel, and issues zero partition queries. -/
theorem c6_empty_ids_empty_frame (cfg : ApdbCassandraConfig)
    (schemaCols physCols : List String) (pixels : List ℤ) (t : ℚ)
    (db : List SourceRow) (hm : cfg.read_sources_months ≠ 0) :
    getDiaSources cfg schemaCols physCols pixels (some []) t db =
      (GetResult.frame schemaCols [], 0) := by
  simp [getDiaSources, hm, getSources]

/-- Claim C6 (witness): the theorem applied at the default configuration,
a two-pixel region and a non-empty database. -/
theorem c6_witness :
    cfg0.read_sources_months ≠ 0 ∧
    getDiaSources cfg0 ["diaSourceId", "diaObjectId", "midPointTai"] [] [1, 2] (some [])
      59000 [⟨1, 613, 7, 59000⟩] =
      (GetResult.frame ["diaSourceId", "diaObjectId", "midPointTai"] [], 0) :=
  ⟨by decide,
    c6_empty_ids_empty_frame cfg0 ["diaSourceId", "diaObjectId", "midPointTai"] [] [1, 2]
      59000 [⟨1, 613, 7, 59000⟩] (by decide)⟩

/-- Caller-side record of a DiaSource / DiaForcedSource frame as the
partition-annotation steps read it: the association id and the
coordinate columns (`ra_dec_columns`). -/
structure SrcRecord where
  diaObjectId : ℤ
  ra : ℚ
  dec : ℚ
deriving DecidableEq

/-- Python dict built by `_add_src_part` and `_add_fsrc_part` from
`zip(objs["diaObjectId"], objs["apdb_part"])`: later entries overwrite
earlier ones, and looking up a missing key raises `KeyError` (`none`). -/
def pixel_id_map (objs : List (ℤ × ℤ)) (key : ℤ) : Option ℤ :=
  objs.reverse.lookup key

/-- Embedding of the row loop of `ApdbCassandra._add_src_part`: a
DiaSource with `diaObjectId == 0` (solar-system association) takes its
partition from its own ra/dec through the pixelization, any other row
takes the `apdb_part` of the referenced DiaObject from the map; a
reference missing from the map raises `KeyError` (`none`). -/
def add_src_part (pixel : ℚ → ℚ → ℤ) (objs : List (ℤ × ℤ)) :
    List SrcRecord → Option (List ℤ)
  | [] => some []
  | s :: rest =>
    let v : Option ℤ :=
      if s.diaObjectId = 0 then some (pixel s.ra s.dec)
      else pixel_id_map objs s.diaObjectId
    match v, add_src_part pixel objs rest with
    | some v, some vs => some (v :: vs)
    | _, _ => none

/-- Embedding of the row loop of `ApdbCassandra._add_fsrc_part`: every
DiaForcedSource row takes the `apdb_part` of the referenced DiaObject
from the map, with no special case for `diaObjectId == 0`; a missing
reference raises `KeyError` (`none`). -/
def add_fsrc_part (objs : List (ℤ × ℤ)) : List SrcRecord → Option (List ℤ)
  | [] => some []
  | s :: rest =>
    match pixel_id_map objs s.diaObjectId, add_fsrc_part objs rest with
    | some v, some vs => some (v :: vs)
    | _, _ => none

theorem add_src_part_get (pixel : ℚ → ℚ → ℤ) (objs : List (ℤ × ℤ)) :
    ∀ (sources : List SrcRecord) (parts : List ℤ),
      add_src_part pixel objs sources = some parts →
      ∀ (i : ℕ) (s : SrcRecord), sources.get? i = some s →
        parts.get? i = (if s.diaObjectId = 0 then some (pixel s.ra s.dec)
                        else pixel_id_map objs s.diaObjectId)
  | [], parts, h, i, s, hi => by simp at hi
  | s0 :: rest, parts, h, i, s, hi => by
    unfold add_src_part at h
    rcases hv : (if s0.diaObjectId = 0 then some (pixel s0.ra s0.dec)
        else pixel_id_map objs s0.diaObjectId) with _ | v <;> rw [hv] at h
    · simp at h
    · rcases hrest : add_src_part pixel objs rest with _ | vs <;> rw [hrest] at h
      · simp at h
      · simp only [Option.some.injEq] at h
        subst h
        cases i with
        | zero =>
          simp only [List.get?] at hi ⊢
          cases hi
          rw [hv]
        | succ n =>
          simp only [List.get?] at hi ⊢
          exact add_src_part_get pixel objs rest vs hrest n s hi

theorem add_fsrc_part_get (objs : List (ℤ × ℤ)) :
    ∀ (sources : List SrcRecord) (parts : List ℤ),
      add_fsrc_part objs sources = some parts →
      ∀ (i : ℕ) (s : SrcRecord), sources.get? i = some s →
        parts.get? i = pixel_id_map objs s.diaObjectId
  | [], parts, h, i, s, hi => by simp at hi
  | s0 :: rest, parts, h, i, s, hi => by
    unfold add_fsrc_part at h
    rcases hv : pixel_id_map objs s0.diaObjectId with _ | v <;> rw [hv] at h
    · simp at h
    · rcases hrest : add_fsrc_part objs rest with _ | vs <;> rw [hrest] at h
      · simp at h
      · simp only [Option.some.injEq] at h
        subst h
        cases i with
        | zero =>
          simp only [List.get?] at hi ⊢
          cases hi
          rw [hv]
        | succ n =>
          simp only [List.get?] at hi ⊢
          exact add_fsrc_part_get objs rest vs hrest n s hi

/-- Claim C7 (counterexample): a DiaForcedSource row with
`diaObjectId == 0` is not assigned a partition from its own ra/dec:
`_add_fsrc_part` has no solar-system special case and its map lookup of
the absent key 0 is a hard `KeyError`, so with an empty object catalog the
annotation fails instead of producing the row's own pixel (42 under the
pixelization `fun _ _ => 42`). -/
theorem c7_counterexample :
    add_fsrc_part [] [⟨0, 1, 2⟩] = none ∧
    add_fsrc_part [] [⟨0, 1, 2⟩] ≠ some [(fun _ _ => (42 : ℤ)) (1 : ℚ) (2 : ℚ)] := by
  constructor
  · rfl
  · intro h
    simp [add_fsrc_part, pixel_id_map] at h

/-- Claim C7 (amended): in every store call, each DiaSource row with
`diaObjectId == 0` is assigned the pixel of its own ra/dec, each
DiaSource row with `diaObjectId != 0` the `apdb_part` of the referenced
DiaObject (a missing reference is a KeyError); each DiaForcedSource row
is always assigned the referenced object's `apdb_part` through the map,
with no `diaObjectId == 0` special case, so a forced-source row whose id
(including 0) is absent from the object catalog is a hard error. -/
theorem c7_partition_assignment (pixel : ℚ → ℚ → ℤ) (objs : List (ℤ × ℤ))
    (sources fsources : List SrcRecord) (parts fparts : List ℤ)
    (hs : add_src_part pixel objs sources = some parts)
    (hf : add_fsrc_part objs fsources = some fparts) :
    (∀ (i : ℕ) (s : SrcRecord), sources.get? i = some s → s.diaObjectId = 0 →
      parts.get? i = some (pixel s.ra s.dec)) ∧
    (∀ (i : ℕ) (s : SrcRecord), sources.get? i = some s → s.diaObjectId ≠ 0 →
      parts.get? i = pixel_id_map objs s.diaObjectId) ∧
    (∀ (i : ℕ) (s : SrcRecord), fsources.get? i = some s →
      fparts.get? i = pixel_id_map objs s.diaObjectId) := by
  refine ⟨?_, ?_, ?_⟩
  · intro i s hi h0
    rw [add_src_part_get pixel objs sources parts hs i s hi, if_pos h0]
  · intro i s hi h0
    rw [add_src_part_get pixel objs sources parts hs i s hi, if_neg h0]
  · intro i s hi
    exact add_fsrc_part_get objs fsources fparts hf i s hi

/-- Claim C7 (witness): the amended theorem applied to a concrete store
call: object catalog `{5 ↦ 77}`, one solar-system DiaSource (id 0), one
associated DiaSource (id 5), one forced source (id 5), under the constant
pixelization `fun _ _ => 101`. -/
theorem c7_witness :
    add_src_part (fun _ _ => (101 : ℤ)) [(5, 77)] [⟨0, 1, 2⟩, ⟨5, 3, 4⟩] =
      some [101, 77] ∧
    add_fsrc_part [(5, 77)] [⟨5, 9, 9⟩] = some [77] ∧
    ([101, 77] : List ℤ).get? 0 = some ((fun _ _ => (101 : ℤ)) (1 : ℚ) (2 : ℚ)) ∧
    ([101, 77] : List ℤ).get? 1 = pixel_id_map [(5, 77)] 5 ∧
    ([77] : List ℤ).get? 0 = pixel_id_map [(5, 77)] 5 := by
  have h1 : add_src_part (fun _ _ => (101 : ℤ)) [(5, 77)] [⟨0, 1, 2⟩, ⟨5, 3, 4⟩] =
      some [101, 77] := by rfl
  have h2 : add_fsrc_part [(5, 77)] [⟨5, 9, 9⟩] = some [77] := by rfl
  obtain ⟨c1, c2, c3⟩ := c7_partition_assignment (fun _ _ => (101 : ℤ)) [(5, 77)]
    [⟨0, 1, 2⟩, ⟨5, 3, 4⟩] [⟨5, 9, 9⟩] [101, 77] [77] h1 h2
  exact ⟨h1, h2, c1 0 ⟨0, 1, 2⟩ rfl rfl, c2 1 ⟨5, 3, 4⟩ rfl (by decide), c3 0 ⟨5, 9, 9⟩ rfl⟩

/-- Modelled from the spec: the `part_range`-aware
`ApdbCassandraSchema.makeSchema` that `ApdbCassandra.makeSchema` calls is
missing from src (src carries an older revision of apdbCassandraSchema.py
whose `makeSchema` has no `part_range` parameter and hard-codes its
partition range, so the call `makeSchema(drop=drop, part_range=...)` could
not execute against it).  Following spec §4.2 and scenario S1, under
time-partition-tables mode the DiaSource and DiaForcedSource logical
tables expand to one physical table `<base>_<i>` per integer of the
`part_range` handed in by the caller; since the caller passes
`(time_partition(start), time_partition(end) + 1)` and S1 expects the
last table to be `time_partition(end)`, the range is half-open
(Python `range(*part_range)`).  Other tables, and all tables outside
time-partition-tables mode, keep a single physical table. -/
def schemaMakeSchemaTables (pfx table : String) (tpt : Bool)
    (part_range : Option (ℤ × ℤ)) : List String :=
  if tpt ∧ (table = "DiaSource" ∨ table = "DiaForcedSource") then
    match part_range with
    | some (lo, hi) =>
      (intRangeIcc lo (hi - 1)).map (fun part => pfx ++ table ++ "_" ++ toString part)
    | none => [pfx ++ table]
  else [pfx ++ table]

/-- Embedding of `ApdbCassandra.makeSchema` (lines 430-442): under
time-partition-tables mode it computes
`part_range = (time_partition(time_partition_start), time_partition(time_partition_end) + 1)`
from the configured TAI range and hands it to the schema catalog;
otherwise no range is passed.  The result is the list of physical tables
created for the given logical table. -/
def apdbMakeSchemaTables (cfg : ApdbCassandraConfig) (table : String) : List String :=
  if cfg.time_partition_tables then
    schemaMakeSchemaTables cfg.table_pfx table cfg.time_partition_tables
      (some (time_partition cfg cfg.time_partition_start,
             time_partition cfg cfg.time_partition_end + 1))
  else
    schemaMakeSchemaTables cfg.table_pfx table cfg.time_partition_tables none

/-- Claim C1: with time_partition_tables enabled, makeSchema creates, for
the DiaSource and DiaForcedSource tables, exactly one physical table
`<base>_<i>` per integer `i` of the inclusive range
`[time_partition(time_partition_start), time_partition(time_partition_end)]`:
the created list has one entry per integer of the range, and a name
belongs to it exactly when it is `<base>_<i>` for such an `i`. -/
theorem c1_makeSchema_tables (cfg : ApdbCassandraConfig)
    (htab : cfg.time_partition_tables = true) (table : String)
    (ht : table = "DiaSource" ∨ table = "DiaForcedSource") :
    (apdbMakeSchemaTables cfg table).length =
      (time_partition cfg cfg.time_partition_end + 1 -
        time_partition cfg cfg.time_partition_start).toNat ∧
    ∀ s : String, s ∈ apdbMakeSchemaTables cfg table ↔
      ∃ i : ℤ, time_partition cfg cfg.time_partition_start ≤ i ∧
        i ≤ time_partition cfg cfg.time_partition_end ∧
        s = cfg.table_pfx ++ table ++ "_" ++ toString i := by
  have hsel : apdbMakeSchemaTables cfg table =
      (intRangeIcc (time_partition cfg cfg.time_partition_start)
        (time_partition cfg cfg.time_partition_end + 1 - 1)).map
        (fun part => cfg.table_pfx ++ table ++ "_" ++ toString part) := by
    unfold apdbMakeSchemaTables schemaMakeSchemaTables
    rw [htab]
    simp [ht]
  constructor
  · rw [hsel]
    simp only [List.length_map]
    unfold intRangeIcc
    simp only [List.length_map, List.length_range]
    omega
  · intro s
    rw [hsel]
    simp only [List.mem_map, mem_intRangeIcc]
    constructor
    · rintro ⟨i, ⟨h1, h2⟩, rfl⟩
      exact ⟨i, h1, by omega, rfl⟩
    · rintro ⟨i, h1, h2, rfl⟩
      exact ⟨i, ⟨h1, by omega⟩, rfl⟩

/-- Claim C1 (witness): the theorem applied at the default configuration
(start 2018-12-01, end 2030-01-01, 30-day partitions: partitions 595
to 730) for the DiaSource table. -/
theorem c1_witness :
    cfg0.time_partition_tables = true ∧
    (("DiaSource" : String) = "DiaSource" ∨ ("DiaSource" : String) = "DiaForcedSource") ∧
    (apdbMakeSchemaTables cfg0 "DiaSource").length =
      (time_partition cfg0 cfg0.time_partition_end + 1 -
        time_partition cfg0 cfg0.time_partition_start).toNat ∧
    ∀ s : String, s ∈ apdbMakeSchemaTables cfg0 "DiaSource" ↔
      ∃ i : ℤ, time_partition cfg0 cfg0.time_partition_start ≤ i ∧
        i ≤ time_partition cfg0 cfg0.time_partition_end ∧
        s = cfg0.table_pfx ++ "DiaSource" ++ "_" ++ toString i :=
  ⟨rfl, Or.inl rfl, c1_makeSchema_tables cfg0 rfl "DiaSource" (Or.inl rfl)⟩

/-- Logical tables written by `ApdbCassandra.store`. -/
inductive ApdbTable where
  | DiaObject
  | DiaObjectLast
  | DiaSource
  | DiaForcedSource
deriving DecidableEq

/-- Errors of the embedded ingest path: a pandas `KeyError` from reading a
missing column and the `ValueError` of `_storeObjectsPandas` for missing
primary-key columns. -/
inductive StoreError where
  | keyError (col : String)
  | missingPrimaryKeys (cols : List String)
deriving DecidableEq

/-- Modelled from the spec: the partition-key columns each table declares
in the YAML schema (`ApdbCassandraSchema.partitionColumns`), per the §3
data model — the schema files themselves are not in src.  Under
time-partition-tables mode `apdb_time_part` is not a column. -/
def partitionColumns (tpt : Bool) : ApdbTable → List String
  | ApdbTable.DiaObjectLast => ["apdb_part"]
  | _ => if tpt then ["apdb_part"] else ["apdb_part", "apdb_time_part"]

/-- Modelled from the spec: the clustering-key columns of each table per
the §3 data model (`ApdbCassandraSchema.clusteringColumns`). -/
def clusteringColumns : ApdbTable → List String
  | ApdbTable.DiaObject => ["diaObjectId", "validityStart"]
  | ApdbTable.DiaObjectLast => ["diaObjectId"]
  | ApdbTable.DiaSource => ["diaObjectId", "diaSourceId"]
  | ApdbTable.DiaForcedSource => ["diaObjectId", "diaForcedSourceId"]

/-- Embedding of `ApdbCassandra._storeObjectsPandas` up to the execution
of its batch: the stored fields are the catalog columns known to the
schema (`getColumnMap`) plus the extra columns, and every partition-key
and clustering-key column must be among them, otherwise a `ValueError`
is raised before any statement is built or executed.  On success the
value stands for the single batch executed against the table, carrying
the inserted column list.  `storeFields` is the `fields` list of the
method (catalog columns known to the schema, then the extra columns) and
`storeMissing` its `missing_columns` list. -/
def storeFields (columnMap : ApdbTable → List String) (tbl : ApdbTable)
    (dfColumns extraColumns : List String) : List String :=
  (dfColumns.filter (fun c => decide (c ∉ extraColumns))).filter
    (fun c => decide (c ∈ columnMap tbl)) ++ extraColumns

/-- The `missing_columns` check of `_storeObjectsPandas`: required
partition and clustering columns absent from the stored fields. -/
def storeMissing (columnMap : ApdbTable → List String) (tpt : Bool) (tbl : ApdbTable)
    (dfColumns extraColumns : List String) : List String :=
  (partitionColumns tpt tbl ++ clusteringColumns tbl).filter
    (fun c => decide (c ∉ storeFields columnMap tbl dfColumns extraColumns))

/-- The raise-or-execute step of `_storeObjectsPandas`. -/
def storeObjectsPandas (columnMap : ApdbTable → List String) (tpt : Bool)
    (tbl : ApdbTable) (dfColumns extraColumns : List String) :
    Except StoreError (ApdbTable × List String) :=
  if (storeMissing columnMap tpt tbl dfColumns extraColumns).isEmpty then
    Except.ok (tbl, storeFields columnMap tbl dfColumns extraColumns)
  else Except.error (StoreError.missingPrimaryKeys
    (storeMissing columnMap tpt tbl dfColumns extraColumns))

/-- Column effect of `ApdbCassandra._add_obj_part`: reads the two
`ra_dec_columns` of the DiaObject frame (a missing one is a pandas
`KeyError`) and adds or overwrites the `apdb_part` column on a copy. -/
def add_obj_part_cols (ra_col dec_col : String) (cols : List String) :
    Except StoreError (List String) :=
  if ra_col ∈ cols then
    if dec_col ∈ cols then
      Except.ok (if "apdb_part" ∈ cols then cols else cols ++ ["apdb_part"])
    else Except.error (StoreError.keyError dec_col)
  else Except.error (StoreError.keyError ra_col)

/-- Column effect of `ApdbCassandra._add_src_part`: reads `diaObjectId`
and the two coordinate columns of the DiaSource frame, then adds or
overwrites `apdb_part` on a copy. -/
def add_src_part_cols (ra_col dec_col : String) (cols : List String) :
    Except StoreError (List String) :=
  if "diaObjectId" ∈ cols then
    if ra_col ∈ cols then
      if dec_col ∈ cols then
        Except.ok (if "apdb_part" ∈ cols then cols else cols ++ ["apdb_part"])
      else Except.error (StoreError.keyError dec_col)
    else Except.error (StoreError.keyError ra_col)
  else Except.error (StoreError.keyError "diaObjectId")

/-- Column effect of `ApdbCassandra._add_fsrc_part`: reads only
`diaObjectId` of the DiaForcedSource frame, then adds or overwrites
`apdb_part` on a copy. -/
def add_fsrc_part_cols (cols : List String) : Except StoreError (List String) :=
  if "diaObjectId" ∈ cols then
    Except.ok (if "apdb_part" ∈ cols then cols else cols ++ ["apdb_part"])
  else Except.error (StoreError.keyError "diaObjectId")

/-- The ordered per-table actions of one `ApdbCassandra.store` call at the
column level: annotate the DiaObject frame, store DiaObjectLast (extra
column `lastNonForcedSource`), store DiaObject (additionally
`validityStart`, and `apdb_time_part` when time partitioning is in-row),
then for each provided source frame annotate it and store it.  Each list
element is the outcome of one step in program order. -/
def storeSteps (columnMap : ApdbTable → List String) (tpt : Bool)
    (ra_col dec_col : String) (objCols : List String)
    (srcCols fsrcCols : Option (List String)) :
    List (Except StoreError (ApdbTable × List String)) :=
  match add_obj_part_cols ra_col dec_col objCols with
  | Except.error e => [Except.error e]
  | Except.ok objCols1 =>
    [storeObjectsPandas columnMap tpt ApdbTable.DiaObjectLast objCols1
       ["lastNonForcedSource"],
     storeObjectsPandas columnMap tpt ApdbTable.DiaObject objCols1
       (["lastNonForcedSource", "validityStart"] ++
         if tpt then [] else ["apdb_time_part"])] ++
    (match srcCols with
     | none => []
     | some cols =>
       [match add_src_part_cols ra_col dec_col cols with
        | Except.error e => Except.error e
        | Except.ok cols1 =>
          storeObjectsPandas columnMap tpt ApdbTable.DiaSource cols1
            (if tpt then [] else ["apdb_time_part"])]) ++
    (match fsrcCols with
     | none => []
     | some cols =>
       [match add_fsrc_part_cols cols with
        | Except.error e => Except.error e
        | Except.ok cols1 =>
          storeObjectsPandas columnMap tpt ApdbTable.DiaForcedSource cols1
            (if tpt then [] else ["apdb_time_part"])])

/-- Execution of the store steps in order: batches execute until the
first error, which aborts the call; the result is the executed batches
and the raised error, if any. -/
def runStores : List (Except StoreError (ApdbTable × List String)) →
    List (ApdbTable × List String) × Option StoreError
  | [] => ([], none)
  | Except.error e :: _ => ([], some e)
  | Except.ok b :: rest =>
    let r := runStores rest
    (b :: r.1, r.2)

/-- Embedding of `ApdbCassandra.store` at the column level. -/
def storeColumns (columnMap : ApdbTable → List String) (tpt : Bool)
    (ra_col dec_col : String) (objCols : List String)
    (srcCols fsrcCols : Option (List String)) :
    List (ApdbTable × List String) × Option StoreError :=
  runStores (storeSteps columnMap tpt ra_col dec_col objCols srcCols fsrcCols)

theorem runStores_mem {steps : List (Except StoreError (ApdbTable × List String))}
    {b : ApdbTable × List String} (h : b ∈ (runStores steps).1) :
    Except.ok b ∈ steps := by
  induction steps with
  | nil => simp [runStores] at h
  | cons s rest ih =>
    cases s with
    | error e => simp [runStores] at h
    | ok b0 =>
      simp only [runStores, List.mem_cons] at h
      rcases h with h | h
      · subst h
        exact List.mem_cons_self _ _
      · exact List.mem_cons_of_mem _ (ih h)


theorem storeObjectsPandas_ok_required {columnMap : ApdbTable → List String}
    {tpt : Bool} {tbl : ApdbTable} {dfColumns extraColumns : List String}
    {b : ApdbTable × List String}
    (h : storeObjectsPandas columnMap tpt tbl dfColumns extraColumns = Except.ok b) :
    b.1 = tbl ∧ ∀ c ∈ partitionColumns tpt tbl ++ clusteringColumns tbl, c ∈ b.2 := by
  unfold storeObjectsPandas at h
  split at h
  case isTrue hm =>
    simp only [Except.ok.injEq] at h
    subst h
    refine ⟨rfl, ?_⟩
    intro c hc
    by_contra hcf
    have hmem : c ∈ storeMissing columnMap tpt tbl dfColumns extraColumns := by
      unfold storeMissing
      rw [List.mem_filter]
      exact ⟨hc, by simpa using hcf⟩
    rw [List.isEmpty_iff] at hm
    rw [hm] at hmem
    simp at hmem
  case isFalse => simp at h

theorem storeSteps_source {columnMap : ApdbTable → List String} {tpt : Bool}
    {ra_col dec_col : String} {objCols : List String}
    {srcCols fsrcCols : Option (List String)} {b : ApdbTable × List String}
    (h : Except.ok b ∈ storeSteps columnMap tpt ra_col dec_col objCols srcCols fsrcCols) :
    ∃ tbl dfc extc, storeObjectsPandas columnMap tpt tbl dfc extc = Except.ok b := by
  unfold storeSteps at h
  rcases ho : add_obj_part_cols ra_col dec_col objCols with e | objCols1 <;> rw [ho] at h
  · simp at h
  · rcases srcCols with _ | scols <;> rcases fsrcCols with _ | fcols <;>
      simp only [List.nil_append, List.append_nil, List.mem_append, List.mem_cons,
        List.not_mem_nil, or_false, List.mem_singleton] at h
    · rcases h with h | h
      · exact ⟨_, _, _, h.symm⟩
      · exact ⟨_, _, _, h.symm⟩
    · rcases h with (h | h) | h
      · exact ⟨_, _, _, h.symm⟩
      · exact ⟨_, _, _, h.symm⟩
      · generalize hgen : add_fsrc_part_cols fcols = res at h
        cases res with
        | error e => simp at h
        | ok fcols1 => exact ⟨_, _, _, h.symm⟩
    · rcases h with (h | h) | h
      · exact ⟨_, _, _, h.symm⟩
      · exact ⟨_, _, _, h.symm⟩
      · generalize hgen : add_src_part_cols ra_col dec_col scols = res at h
        cases res with
        | error e => simp at h
        | ok scols1 => exact ⟨_, _, _, h.symm⟩
    · rcases h with ((h | h) | h) | h
      · exact ⟨_, _, _, h.symm⟩
      · exact ⟨_, _, _, h.symm⟩
      · generalize hgen : add_src_part_cols ra_col dec_col scols = res at h
        cases res with
        | error e => simp at h
        | ok scols1 => exact ⟨_, _, _, h.symm⟩
      · generalize hgen : add_fsrc_part_cols fcols = res at h
        cases res with
        | error e => simp at h
        | ok fcols1 => exact ⟨_, _, _, h.symm⟩

/-- Modelled from the spec: a representative column map of the YAML
schema (the `getColumnMap` result), listing the column names the tables
declare; the YAML schema files themselves are not in src.  Used only to
instantiate concrete store calls. -/
def columnMapSpec : ApdbTable → List String := fun _ =>
  ["apdb_part", "apdb_time_part", "diaObjectId", "diaSourceId",
   "diaForcedSourceId", "validityStart", "lastNonForcedSource", "ra", "decl",
   "midPointTai"]

/-- Claim C8 (amended): every batch the store call actually executes
contains all partition-key and clustering-key columns of its target table
(missing keys abort with an error before that table's insert), and a
DiaObject frame missing the `diaObjectId` clustering column makes the
call fail before any CQL at all is emitted.  The claim as stated fails
for the key columns the pipeline derives itself (`apdb_part`,
`apdb_time_part`, `validityStart`, `lastNonForcedSource`): their absence
from the input catalog raises nothing (see the counterexample). -/
theorem c8_store_primary_key_check (columnMap : ApdbTable → List String)
    (tpt : Bool) (ra_col dec_col : String) (objCols : List String)
    (srcCols fsrcCols : Option (List String)) :
    (∀ b : ApdbTable × List String,
      b ∈ (storeColumns columnMap tpt ra_col dec_col objCols srcCols fsrcCols).1 →
      ∀ c ∈ partitionColumns tpt b.1 ++ clusteringColumns b.1, c ∈ b.2) ∧
    ("diaObjectId" ∉ objCols →
      (storeColumns columnMap tpt ra_col dec_col objCols srcCols fsrcCols).1 = [] ∧
      ((storeColumns columnMap tpt ra_col dec_col objCols srcCols fsrcCols).2).isSome
        = true) := by
  constructor
  · intro b hb c hc
    obtain ⟨tbl, dfc, extc, hok⟩ := storeSteps_source (runStores_mem hb)
    obtain ⟨hb1, hreq⟩ := storeObjectsPandas_ok_required hok
    rw [hb1] at hc
    exact hreq c hc
  · intro hid
    unfold storeColumns storeSteps
    rcases ho : add_obj_part_cols ra_col dec_col objCols with e | objCols1
    · exact ⟨rfl, rfl⟩
    · have hoc : "diaObjectId" ∉ objCols1 := by
        unfold add_obj_part_cols at ho
        split at ho
        · split at ho
          · simp only [Except.ok.injEq] at ho
            subst ho
            split
            · exact hid
            · intro hmem
              rcases List.mem_append.mp hmem with hmem | hmem
              · exact hid hmem
              · simp at hmem
          · simp at ho
        · simp at ho
      have hmiss : (storeMissing columnMap tpt ApdbTable.DiaObjectLast objCols1
          ["lastNonForcedSource"]).isEmpty = false := by
        rcases hez : (storeMissing columnMap tpt ApdbTable.DiaObjectLast objCols1
            ["lastNonForcedSource"]).isEmpty with _ | _
        · rfl
        · exfalso
          rw [List.isEmpty_iff] at hez
          have hin : "diaObjectId" ∈ storeMissing columnMap tpt ApdbTable.DiaObjectLast
              objCols1 ["lastNonForcedSource"] := by
            unfold storeMissing
            rw [List.mem_filter]
            constructor
            · show "diaObjectId" ∈ partitionColumns tpt ApdbTable.DiaObjectLast ++
                clusteringColumns ApdbTable.DiaObjectLast
              simp [partitionColumns, clusteringColumns]
            · simp only [decide_eq_true_eq]
              unfold storeFields
              intro hmem
              rcases List.mem_append.mp hmem with hmem | hmem
              · exact hoc (List.mem_of_mem_filter (List.mem_of_mem_filter hmem))
              · simp at hmem
          rw [hez] at hin
          simp at hin
      have hstore : storeObjectsPandas columnMap tpt ApdbTable.DiaObjectLast objCols1
          ["lastNonForcedSource"] = Except.error (StoreError.missingPrimaryKeys
            (storeMissing columnMap tpt ApdbTable.DiaObjectLast objCols1
              ["lastNonForcedSource"])) := by
        unfold storeObjectsPandas
        rw [hmiss]
        rfl
      dsimp only
      rw [hstore]
      exact ⟨rfl, rfl⟩

/-- Claim C8 (counterexample): the claim as stated quantifies over every
partition-key or clustering-key column, but an input DiaObject catalog
lacking the partition-key column `apdb_part` raises no error at all: the
pipeline derives `apdb_part` itself in `_add_obj_part`, so the store call
completes without a data error. -/
theorem c8_counterexample :
    "apdb_part" ∈ partitionColumns true ApdbTable.DiaObjectLast ∧
    "apdb_part" ∉ (["diaObjectId", "ra", "decl"] : List String) ∧
    (storeColumns columnMapSpec true "ra" "decl" ["diaObjectId", "ra", "decl"]
      none none).2 = none := by
  refine ⟨by decide, by decide, ?_⟩
  rfl

/-- Claim C8 (witness): the amended theorem applied to a store call whose
DiaObject frame has only coordinate columns and no `diaObjectId`: no
batch is emitted and an error is raised. -/
theorem c8_witness :
    ("diaObjectId" ∉ (["ra", "decl"] : List String)) ∧
    (storeColumns columnMapSpec true "ra" "decl" ["ra", "decl"] none none).1 = [] ∧
    ((storeColumns columnMapSpec true "ra" "decl" ["ra", "decl"] none none).2).isSome
      = true :=
  ⟨by decide,
    (c8_store_primary_key_check columnMapSpec true "ra" "decl" ["ra", "decl"]
      none none).2 (by decide)⟩

/-- Outcome of one concurrent query as the result iterator of
`execute_concurrent(..., results_generator=True, raise_on_first_error=False)`
yields it to `_run_queries`: a `(success, result)` pair.  A successful
result carries its column names and raw rows; a failed one the exception
object (an error token here). -/
inductive QueryOutcome where
  | success (cols : List String) (rows : List (List ℚ))
  | failure (err : ℕ)
deriving DecidableEq

/-- Exception raised by `_run_queries`: a failed query's exception
re-raised by `raise result`, or the `ValueError` for mismatched column
sets in the delayed branch. -/
inductive RunError where
  | queryError (err : ℕ)
  | columnMismatch (a b : List String)
deriving DecidableEq

/-- Embedding of the result-consumption loop of `_run_queries` with
`pandas_delay_conv` (the delayed branch): results are consumed in order;
a successful result must repeat the first result's column names (else
`ValueError`) and contributes its rows; a failed result is re-raised at
once.  The first component counts the results consumed from the
generator; when an error is raised the remaining results stay
unconsumed. -/
def runQueriesDelayed : Option (List String) → List (List ℚ) → ℕ →
    List QueryOutcome → ℕ × Except RunError (List String × List (List ℚ))
  | cols, rows, n, [] => (n, Except.ok (cols.getD [], rows))
  | _, _, n, QueryOutcome.failure e :: _ =>
    (n + 1, Except.error (RunError.queryError e))
  | cols, rows, n, QueryOutcome.success c r :: rest =>
    match cols with
    | none => runQueriesDelayed (some c) (rows ++ r) (n + 1) rest
    | some c0 =>
      if c0 = c then runQueriesDelayed (some c0) (rows ++ r) (n + 1) rest
      else (n + 1, Except.error (RunError.columnMismatch c0 c))

/-- Embedding of the non-delayed branch of `_run_queries`: frames are
collected and concatenated; a failed result is re-raised at once, leaving
the rest unconsumed. -/
def runQueriesImmediate : List (List ℚ) → ℕ → List QueryOutcome →
    ℕ × Except RunError (List (List ℚ))
  | rows, n, [] => (n, Except.ok rows)
  | _, n, QueryOutcome.failure e :: _ =>
    (n + 1, Except.error (RunError.queryError e))
  | rows, n, QueryOutcome.success _ r :: rest =>
    runQueriesImmediate (rows ++ r) (n + 1) rest

theorem runQueriesDelayed_error (e : ℕ) (post : List QueryOutcome) (c0 : List String) :
    ∀ (pre : List QueryOutcome) (rows : List (List ℚ)) (n : ℕ),
      (∀ x ∈ pre, ∃ r, x = QueryOutcome.success c0 r) →
      runQueriesDelayed (some c0) rows n (pre ++ QueryOutcome.failure e :: post) =
        (n + pre.length + 1, Except.error (RunError.queryError e))
  | [], rows, n, _ => by simp [runQueriesDelayed]
  | x :: rest, rows, n, hpre => by
    obtain ⟨r, rfl⟩ := hpre x (List.mem_cons_self x rest)
    show runQueriesDelayed (some c0) rows n
      (QueryOutcome.success c0 r :: (rest ++ QueryOutcome.failure e :: post)) = _
    rw [runQueriesDelayed]
    simp only [if_pos rfl]
    rw [runQueriesDelayed_error e post c0 rest (rows ++ r) (n + 1)
      (fun y hy => hpre y (List.mem_cons_of_mem _ hy))]
    refine congrArg (fun k => (k, _)) ?_
    rw [List.length_cons]
    omega

theorem runQueriesImmediate_error (e : ℕ) (post : List QueryOutcome) :
    ∀ (pre : List QueryOutcome) (rows : List (List ℚ)) (n : ℕ),
      (∀ x ∈ pre, ∃ c r, x = QueryOutcome.success c r) →
      runQueriesImmediate rows n (pre ++ QueryOutcome.failure e :: post) =
        (n + pre.length + 1, Except.error (RunError.queryError e))
  | [], rows, n, _ => by simp [runQueriesImmediate]
  | x :: rest, rows, n, hpre => by
    obtain ⟨c, r, rfl⟩ := hpre x (List.mem_cons_self x rest)
    show runQueriesImmediate rows n
      (QueryOutcome.success c r :: (rest ++ QueryOutcome.failure e :: post)) = _
    rw [runQueriesImmediate]
    rw [runQueriesImmediate_error e post rest (rows ++ r) (n + 1)
      (fun y hy => hpre y (List.mem_cons_of_mem _ hy))]
    refine congrArg (fun k => (k, _)) ?_
    rw [List.length_cons]
    omega

/-- Claim C9 (counterexample): `_run_queries` does not drain the remaining
results before raising: with a failed first query and one further pending
result, the loop raises after consuming only the failed result (1 of 2),
abandoning the rest of the generator. -/
theorem c9_counterexample :
    runQueriesDelayed none [] 0
      [QueryOutcome.failure 5, QueryOutcome.success ["a"] [[1]]] =
      (1, Except.error (RunError.queryError 5)) ∧ (1 : ℕ) ≠ 2 := by
  constructor
  · rfl
  · decide

/-- Claim C9 (amended): all queries are dispatched (the call passes
`raise_on_first_error=False` to `execute_concurrent`, so no query is
cancelled at dispatch), but while iterating the results the executor
raises the first error immediately upon encountering it: if every result
before the first failure is a success (in delayed mode all bearing the
first result's column set), exactly the results up to and including the
failure are consumed and that failure's error is raised, in both the
delayed and the immediate branch; later results are left unconsumed. -/
theorem c9_first_error_raised (pre : List QueryOutcome) (c0 : List String)
    (e : ℕ) (post : List QueryOutcome)
    (hpre : ∀ x ∈ pre, ∃ r, x = QueryOutcome.success c0 r) :
    runQueriesDelayed none [] 0 (pre ++ QueryOutcome.failure e :: post) =
      (pre.length + 1, Except.error (RunError.queryError e)) ∧
    runQueriesImmediate [] 0 (pre ++ QueryOutcome.failure e :: post) =
      (pre.length + 1, Except.error (RunError.queryError e)) := by
  constructor
  · cases pre with
    | nil => rfl
    | cons x rest =>
      obtain ⟨r, rfl⟩ := hpre x (List.mem_cons_self x rest)
      show runQueriesDelayed none [] 0
        (QueryOutcome.success c0 r :: (rest ++ QueryOutcome.failure e :: post)) = _
      rw [runQueriesDelayed]
      rw [runQueriesDelayed_error e post c0 rest ([] ++ r) 1
        (fun y hy => hpre y (List.mem_cons_of_mem _ hy))]
      refine congrArg (fun k => (k, _)) ?_
      simp
      omega
  · rw [runQueriesImmediate_error e post pre [] 0
      (fun y hy => ⟨c0, (hpre y hy).choose, (hpre y hy).choose_spec⟩)]
    refine congrArg (fun k => (k, _)) ?_
    omega

/-- Claim C9 (witness): the amended theorem applied to a plan of three
results whose middle query failed: two results consumed, error 7
raised. -/
theorem c9_witness :
    (∀ x ∈ [QueryOutcome.success ["a"] [[1]]],
      ∃ r, x = QueryOutcome.success ["a"] r) ∧
    runQueriesDelayed none [] 0
      ([QueryOutcome.success ["a"] [[1]]] ++ QueryOutcome.failure 7 ::
        [QueryOutcome.success ["a"] [[2]]]) =
      (2, Except.error (RunError.queryError 7)) ∧
    runQueriesImmediate [] 0
      ([QueryOutcome.success ["a"] [[1]]] ++ QueryOutcome.failure 7 ::
        [QueryOutcome.success ["a"] [[2]]]) =
      (2, Except.error (RunError.queryError 7)) := by
  have hpre : ∀ x ∈ [QueryOutcome.success ["a"] [[1]]],
      ∃ r, x = QueryOutcome.success ["a"] r := by
    intro x hx
    simp only [List.mem_singleton] at hx
    exact ⟨[[1]], hx⟩
  obtain ⟨h1, h2⟩ := c9_first_error_raised [QueryOutcome.success ["a"] [[1]]] ["a"] 7
    [QueryOutcome.success ["a"] [[2]]] hpre
  exact ⟨hpre, h1, h2⟩

/-- pandas DataFrame for the mutation claim: an ordered association of
column names to column values. -/
abbrev Frame := List (String × List ℚ)

/-- Column assignment `df[name] = vals`: overwrites the column in place
when it exists, else appends it. -/
def setCol (f : Frame) (name : String) (vals : List ℚ) : Frame :=
  if f.any (fun p => decide (p.1 = name)) then
    f.map (fun p => if p.1 = name then (name, vals) else p)
  else f ++ [(name, vals)]

/-- Heap of DataFrame objects: Python variables hold references into it;
`mem r` is the frame object behind reference `r` and `next` the next
fresh reference. -/
structure Heap where
  mem : ℕ → Frame
  next : ℕ

/-- `df.copy()` / fresh frame creation: a new object with a fresh
reference. -/
def Heap.alloc (h : Heap) (f : Frame) : Heap × ℕ :=
  (⟨fun i => if i = h.next then f else h.mem i, h.next + 1⟩, h.next)

/-- In-place update of the object behind a reference (what a column
assignment does to the object the variable points at). -/
def Heap.write (h : Heap) (r : ℕ) (f : Frame) : Heap :=
  ⟨fun i => if i = r then f else h.mem i, h.next⟩

/-- Common shape of the three `_add_*_part` methods: compute the pixel
values from the input frames read-only, rebind the local variable to a
copy (`df = df.copy()`), assign the `apdb_part` column on the copy
(`df["apdb_part"] = apdb_part`) and return the copy's reference. -/
def copyAnnotate (h : Heap) (src : ℕ) (vals : List ℚ) : Heap × ℕ :=
  let ar := h.alloc (h.mem src)
  (ar.1.write ar.2 (setCol (ar.1.mem ar.2) "apdb_part" vals), ar.2)

/-- Heap-level `_add_obj_part`: the assigned values are the pixel ids of
the DiaObject rows' own coordinates, a read-only function of the input
frame. -/
def add_obj_part_H (compute : Frame → List ℚ) (h : Heap) (df : ℕ) : Heap × ℕ :=
  copyAnnotate h df (compute (h.mem df))

/-- Heap-level `_add_src_part`: the assigned values are a read-only
function of the DiaSource frame and the annotated DiaObject frame
(the id-to-partition map and the solar-system fallback of C7). -/
def add_src_part_H (compute : Frame → Frame → List ℚ) (h : Heap)
    (sources objs : ℕ) : Heap × ℕ :=
  copyAnnotate h sources (compute (h.mem sources) (h.mem objs))

/-- Heap-level `_add_fsrc_part`: same shape as `add_src_part_H`. -/
def add_fsrc_part_H (compute : Frame → Frame → List ℚ) (h : Heap)
    (sources objs : ℕ) : Heap × ℕ :=
  copyAnnotate h sources (compute (h.mem sources) (h.mem objs))

/-- Heap-level embedding of `ApdbCassandra.store` (both source frames
given): annotate the DiaObject frame, then the DiaSource frame against
the annotated objects, then the DiaForcedSource frame; the inserts
themselves never touch the frames.  Returns the final heap and the
references the local variables `objects`, `sources`, `forced_sources`
hold after rebinding. -/
def store_H (computeObj : Frame → List ℚ)
    (computeSrc computeFsrc : Frame → Frame → List ℚ)
    (h : Heap) (objs srcs fsrcs : ℕ) : Heap × ℕ × ℕ × ℕ :=
  let o := add_obj_part_H computeObj h objs
  let s := add_src_part_H computeSrc o.1 srcs o.2
  let f := add_fsrc_part_H computeFsrc s.1 fsrcs o.2
  (f.1, o.2, s.2, f.2)

theorem copyAnnotate_ref (h : Heap) (src : ℕ) (vals : List ℚ) :
    (copyAnnotate h src vals).2 = h.next ∧
    (copyAnnotate h src vals).1.next = h.next + 1 := by
  constructor <;> rfl

theorem copyAnnotate_mem_lt (h : Heap) (src : ℕ) (vals : List ℚ)
    {r : ℕ} (hr : r < h.next) :
    (copyAnnotate h src vals).1.mem r = h.mem r := by
  show (if r = h.next then _ else if r = h.next then _ else h.mem r) = h.mem r
  rw [if_neg (by omega), if_neg (by omega)]

theorem copyAnnotate_mem_new (h : Heap) (src : ℕ) (vals : List ℚ)
    (_hsrc : src < h.next) :
    (copyAnnotate h src vals).1.mem (copyAnnotate h src vals).2 =
      setCol (h.mem src) "apdb_part" vals := by
  show (if h.next = h.next then
      setCol (if h.next = h.next then h.mem src else h.mem h.next) "apdb_part" vals
    else _) = _
  rw [if_pos rfl, if_pos rfl]

/-- Claim C10: a store call never mutates the caller's input frames: after
the partition-annotation steps (each of which rebinds its local variable
to a copy with the `apdb_part` column added or overwritten), the objects
behind the caller's references hold exactly the frames they held before
the call, and the three annotated copies are `setCol` images of the
inputs. -/
theorem c10_store_no_mutation (computeObj : Frame → List ℚ)
    (computeSrc computeFsrc : Frame → Frame → List ℚ) (h : Heap)
    (objs srcs fsrcs : ℕ)
    (ho : objs < h.next) (hs : srcs < h.next) (hf : fsrcs < h.next) :
    ((store_H computeObj computeSrc computeFsrc h objs srcs fsrcs).1.mem objs
      = h.mem objs) ∧
    ((store_H computeObj computeSrc computeFsrc h objs srcs fsrcs).1.mem srcs
      = h.mem srcs) ∧
    ((store_H computeObj computeSrc computeFsrc h objs srcs fsrcs).1.mem fsrcs
      = h.mem fsrcs) ∧
    ((store_H computeObj computeSrc computeFsrc h objs srcs fsrcs).1.mem
        (store_H computeObj computeSrc computeFsrc h objs srcs fsrcs).2.1
      = setCol (h.mem objs) "apdb_part" (computeObj (h.mem objs))) := by
  unfold store_H add_obj_part_H add_src_part_H add_fsrc_part_H
  have h1 := copyAnnotate_ref h objs (computeObj (h.mem objs))
  set o := copyAnnotate h objs (computeObj (h.mem objs)) with hodef
  have ho2 : ∀ r, r < h.next → o.1.mem r = h.mem r :=
    fun r hr => copyAnnotate_mem_lt h objs _ hr
  have honew : o.1.mem o.2 = setCol (h.mem objs) "apdb_part" (computeObj (h.mem objs)) :=
    copyAnnotate_mem_new h objs _ ho
  have h2 := copyAnnotate_ref o.1 srcs (computeSrc (o.1.mem srcs) (o.1.mem o.2))
  set s := copyAnnotate o.1 srcs (computeSrc (o.1.mem srcs) (o.1.mem o.2)) with hsdef
  have hs2 : ∀ r, r < o.1.next → s.1.mem r = o.1.mem r :=
    fun r hr => copyAnnotate_mem_lt o.1 srcs _ hr
  have h3 := copyAnnotate_ref s.1 fsrcs (computeFsrc (s.1.mem fsrcs) (s.1.mem o.2))
  set f := copyAnnotate s.1 fsrcs (computeFsrc (s.1.mem fsrcs) (s.1.mem o.2)) with hfdef
  have hf2 : ∀ r, r < s.1.next → f.1.mem r = s.1.mem r :=
    fun r hr => copyAnnotate_mem_lt s.1 fsrcs _ hr
  have hn1 : o.1.next = h.next + 1 := h1.2
  have hn2 : s.1.next = o.1.next + 1 := h2.2
  have hor : o.2 = h.next := h1.1
  refine ⟨?_, ?_, ?_, ?_⟩
  · rw [hf2 objs (by omega), hs2 objs (by omega), ho2 objs ho]
  · rw [hf2 srcs (by omega), hs2 srcs (by omega), ho2 srcs hs]
  · rw [hf2 fsrcs (by omega), hs2 fsrcs (by omega), ho2 fsrcs hf]
  · rw [hf2 o.2 (by omega), hs2 o.2 (by omega), honew]

/-- Claim C10 (witness): the theorem applied at a concrete heap of three
empty frames and constant pixel computations. -/
theorem c10_witness :
    (0 : ℕ) < 3 ∧ (1 : ℕ) < 3 ∧ (2 : ℕ) < 3 ∧
    ((store_H (fun _ => [7]) (fun _ _ => [8]) (fun _ _ => [9])
        ⟨fun _ => [("ra", [1])], 3⟩ 0 1 2).1.mem 0 = [("ra", [1])]) := by
  have h := c10_store_no_mutation (fun _ => [7]) (fun _ _ => [8]) (fun _ _ => [9])
    ⟨fun _ => [("ra", [1])], 3⟩ 0 1 2 (by decide) (by decide) (by decide)
  exact ⟨by decide, by decide, by decide, h.1⟩
